import Mathlib

/-!
# Verification of the `torchtnt.runner.state` state container

Shallow embedding of `src/torchtnt/runner/state.py` and proofs of its
specified properties.

The Python module defines:
* `_check_loop_condition(name, val)` — raises `ValueError` when `val` is a
  negative integer;
* `EntryPoint` — a four-value enum;
* `PhaseState` — a dataclass whose `__post_init__` validates five optional
  integer fields;
* `State` — a dataclass holding the entry point, a timer, up to three
  optional `PhaseState`s and a stop flag, with `stop()` and the read-only
  property `should_stop`.

Opaque collaborator values (the dataloader, `Progress`, `Timer`, and the
step output) are modelled by type parameters `D`, `P`, `T`, `O`: the Python
container never inspects them, so the embedding must not either.
Fallible construction (`PhaseState.__init__` + `__post_init__`) is embedded
as a function into `Except String`; everything else in the module is
total, so it is embedded as plain functions.  Mutation is embedded as
explicit state passing.
-/

namespace TnT

/-- The error message built by `_check_loop_condition`'s `raise ValueError`
(an f-string, i.e. string concatenation). -/
def loopErrMsg (name : String) (v : Int) : String :=
  "Invalid value provided for " ++ name ++
    ". Expected a non-negative integer or None, but received " ++
    toString v ++ "."

/-- Embedding of `_check_loop_condition(name, val)`:
`if val is not None and val < 0: raise ValueError(...)`. -/
def check_loop_condition (name : String) (val : Option Int) :
    Except String Unit :=
  match val with
  | some v =>
      if v < 0 then Except.error (loopErrMsg name v) else Except.ok ()
  | none => Except.ok ()

/-- Embedding of the `EntryPoint` enum. -/
inductive EntryPoint where
  | FIT
  | TRAIN
  | EVALUATE
  | PREDICT
  deriving DecidableEq, Repr

/-- Embedding of the `PhaseState` dataclass record (its fields).  `D` is the
type of the opaque dataloader, `P` the opaque `Progress` collaborator, `O`
the payload type of `step_output` (Python `Any`, default `None`, hence
`Option O`). -/
structure PhaseState (D P O : Type) where
  dataloader : D
  progress : P
  max_epochs : Option Int := none
  max_steps : Option Int := none
  max_steps_per_epoch : Option Int := none
  evaluate_every_n_steps : Option Int := none
  evaluate_every_n_epochs : Option Int := none
  step_output : Option O := none
  deriving Repr

/-- Embedding of `PhaseState` construction: the dataclass `__init__` sets
all fields, then `__post_init__` runs the five `_check_loop_condition`
checks in source order.  A raised `ValueError` is the `Except.error` case,
so no partially-constructed value is observable on failure. -/
def mkPhaseState {D P O : Type} (dataloader : D) (progress : P)
    (max_epochs max_steps max_steps_per_epoch
      evaluate_every_n_steps evaluate_every_n_epochs : Option Int)
    (step_output : Option O) : Except String (PhaseState D P O) := do
  let self : PhaseState D P O :=
    { dataloader, progress, max_epochs, max_steps, max_steps_per_epoch,
      evaluate_every_n_steps, evaluate_every_n_epochs, step_output }
  check_loop_condition "max_epochs" self.max_epochs
  check_loop_condition "max_steps" self.max_steps
  check_loop_condition "max_steps_per_epoch" self.max_steps_per_epoch
  check_loop_condition "evaluate_every_n_steps" self.evaluate_every_n_steps
  check_loop_condition "evaluate_every_n_epochs" self.evaluate_every_n_epochs
  pure self

/-- Embedding of the `State` dataclass record.  `T` is the opaque `Timer`
collaborator. -/
structure State (D P O T : Type) where
  entry_point : EntryPoint
  timer : T
  train_state : Option (PhaseState D P O) := none
  eval_state : Option (PhaseState D P O) := none
  predict_state : Option (PhaseState D P O) := none
  _should_stop : Bool := false
  deriving Repr

/-- `State` construction with the documented constructor arguments
(`entry_point, timer, train_state, eval_state, predict_state`): the
dataclass has no `__post_init__`, so construction is total and
`_should_stop` takes its declared default `False`. -/
def mkState {D P O T : Type} (entry_point : EntryPoint) (timer : T)
    (train_state eval_state predict_state : Option (PhaseState D P O)) :
    State D P O T :=
  { entry_point, timer, train_state, eval_state, predict_state }

/-- Embedding of `State.stop()`: sets `self._should_stop = True` (the
logging call writes only to the external logger, not to the object). -/
def State.stop {D P O T : Type} (s : State D P O T) : State D P O T :=
  { s with _should_stop := true }

/-- Embedding of the read-only property `State.should_stop`:
`return self._should_stop`. -/
def State.should_stop {D P O T : Type} (s : State D P O T) : Bool :=
  s._should_stop

/-- The `should_stop` property access as an explicit state-passing read:
it returns the flag and the (unchanged) object state after the read. -/
def State.read_should_stop {D P O T : Type} (s : State D P O T) :
    Bool × State D P O T :=
  (s._should_stop, s)

/-- A negative optional integer (the condition under which
`_check_loop_condition` raises). -/
def isNegOpt : Option Int → Bool
  | some v => decide (v < 0)
  | none => false

/-- The (field-name, value) pair a single check would report: `some` exactly
when the value is a negative integer. -/
def violation (name : String) : Option Int → Option (String × Int)
  | some v => if v < 0 then some (name, v) else none
  | none => none

/-- The first (field-name, value) pair, in the `__post_init__` check order,
whose value is a negative integer — `none` when every field passes. -/
def firstViolation (max_epochs max_steps max_steps_per_epoch
    evaluate_every_n_steps evaluate_every_n_epochs : Option Int) :
    Option (String × Int) :=
  (violation "max_epochs" max_epochs).or
    ((violation "max_steps" max_steps).or
      ((violation "max_steps_per_epoch" max_steps_per_epoch).or
        ((violation "evaluate_every_n_steps" evaluate_every_n_steps).or
          (violation "evaluate_every_n_epochs" evaluate_every_n_epochs))))

/-- `sub` occurs contiguously inside `s`. -/
def strContains (s sub : String) : Prop :=
  sub.data <:+: s.data

/-- One atomic interaction the loop driver (or an asynchronous caller) can
perform on a `State` after construction: a `stop()` call, a `should_stop`
read, or a driver write to the `step_output` / `progress` field of one of
the three contained phase states. -/
inductive DriverOp (P O : Type) where
  | stopCall
  | readFlag
  | writeTrainOutput (o : Option O)
  | writeEvalOutput (o : Option O)
  | writePredictOutput (o : Option O)
  | writeTrainProgress (p : P)
  | writeEvalProgress (p : P)
  | writePredictProgress (p : P)

/-- Effect of a single driver operation on the container state. -/
def applyOp {D P O T : Type} : DriverOp P O → State D P O T → State D P O T
  | .stopCall, s => s.stop
  | .readFlag, s => (s.read_should_stop).2
  | .writeTrainOutput o, s =>
      { s with train_state :=
          s.train_state.map fun ps => { ps with step_output := o } }
  | .writeEvalOutput o, s =>
      { s with eval_state :=
          s.eval_state.map fun ps => { ps with step_output := o } }
  | .writePredictOutput o, s =>
      { s with predict_state :=
          s.predict_state.map fun ps => { ps with step_output := o } }
  | .writeTrainProgress p, s =>
      { s with train_state :=
          s.train_state.map fun ps => { ps with progress := p } }
  | .writeEvalProgress p, s =>
      { s with eval_state :=
          s.eval_state.map fun ps => { ps with progress := p } }
  | .writePredictProgress p, s =>
      { s with predict_state :=
          s.predict_state.map fun ps => { ps with progress := p } }

/-- Effect of a sequence of driver operations, applied left to right. -/
def applyOps {D P O T : Type} (ops : List (DriverOp P O))
    (s : State D P O T) : State D P O T :=
  ops.foldl (fun acc op => applyOp op acc) s

/-! ## Characterization lemmas -/

/-- `mkPhaseState` errors with the message of the first violated check, in
`__post_init__` order, and otherwise returns the record of its inputs. -/
theorem mkPhaseState_eq {D P O : Type} (d : D) (pr : P) (o : Option O)
    (me ms mspe ens ene : Option Int) :
    mkPhaseState d pr me ms mspe ens ene o =
      match firstViolation me ms mspe ens ene with
      | some nv => Except.error (loopErrMsg nv.1 nv.2)
      | none => Except.ok
          { dataloader := d, progress := pr, max_epochs := me,
            max_steps := ms, max_steps_per_epoch := mspe,
            evaluate_every_n_steps := ens, evaluate_every_n_epochs := ene,
            step_output := o } := by
  rcases me with _ | a <;> rcases ms with _ | b <;> rcases mspe with _ | c <;>
    rcases ens with _ | e <;> rcases ene with _ | f <;>
      simp only [mkPhaseState, check_loop_condition, firstViolation,
        violation, Option.or, bind, Except.bind, pure, Except.pure] <;>
      split_ifs <;> rfl

/-- `firstViolation` returns `none` exactly when no field is negative. -/
theorem firstViolation_none_iff (me ms mspe ens ene : Option Int) :
    firstViolation me ms mspe ens ene = none ↔
      (isNegOpt me = false ∧ isNegOpt ms = false ∧ isNegOpt mspe = false
        ∧ isNegOpt ens = false ∧ isNegOpt ene = false) := by
  rcases me with _ | a <;> rcases ms with _ | b <;> rcases mspe with _ | c <;>
    rcases ens with _ | e <;> rcases ene with _ | f <;>
      simp [firstViolation, violation, isNegOpt, Option.or] <;>
      (try split_ifs) <;> simp_all

/-- When `firstViolation` reports a pair, its value is negative and its name
is the name of the matching field. -/
theorem firstViolation_some (me ms mspe ens ene : Option Int)
    (name : String) (v : Int)
    (h : firstViolation me ms mspe ens ene = some (name, v)) :
    v < 0 ∧ ((name = "max_epochs" ∧ me = some v)
      ∨ (name = "max_steps" ∧ ms = some v)
      ∨ (name = "max_steps_per_epoch" ∧ mspe = some v)
      ∨ (name = "evaluate_every_n_steps" ∧ ens = some v)
      ∨ (name = "evaluate_every_n_epochs" ∧ ene = some v)) := by
  rcases me with _ | a <;> rcases ms with _ | b <;> rcases mspe with _ | c <;>
    rcases ens with _ | e <;> rcases ene with _ | f <;>
      simp only [firstViolation, violation, Option.or] at h <;>
      (try split_ifs at h) <;> simp_all

/-- The check's error message contains the field name. -/
theorem strContains_loopErrMsg_name (n : String) (v : Int) :
    strContains (loopErrMsg n v) n := by
  unfold strContains loopErrMsg
  refine ⟨ "Invalid value provided for ".data,
    (". Expected a non-negative integer or None, but received "
      ++ toString v ++ ".").data, ?_⟩
  simp [String.data_append, List.append_assoc]

/-- The check's error message contains the rendering of the illegal value. -/
theorem strContains_loopErrMsg_val (n : String) (v : Int) :
    strContains (loopErrMsg n v) (toString v) := by
  unfold strContains loopErrMsg
  refine ⟨ ("Invalid value provided for " ++ n
      ++ ". Expected a non-negative integer or None, but received ").data,
    ".".data, ?_⟩
  simp [String.data_append, List.append_assoc]

/-- A single driver operation never clears the stop flag. -/
theorem applyOp_flag_mono {D P O T : Type} (op : DriverOp P O)
    (s : State D P O T) (h : s._should_stop = true) :
    (applyOp op s)._should_stop = true := by
  cases op <;>
    simp_all [applyOp, State.stop, State.read_should_stop]

/-! ## Claims -/

/-- C1: `PhaseState` construction fails (with a `ValueError`, the
`InvalidArgument` kind) iff at least one of the five optional integer
fields is negative; with every field `None`, `0` or positive it succeeds
and returns exactly the record of its inputs; and on failure the message
contains the offending field's name and the illegal value. -/
theorem phaseState_validation (D P O : Type) (d : D) (pr : P) (o : Option O)
    (me ms mspe ens ene : Option Int) :
    ((∃ e, mkPhaseState d pr me ms mspe ens ene o = Except.error e) ↔
      (isNegOpt me = true ∨ isNegOpt ms = true ∨ isNegOpt mspe = true
        ∨ isNegOpt ens = true ∨ isNegOpt ene = true))
    ∧ ((isNegOpt me = false ∧ isNegOpt ms = false ∧ isNegOpt mspe = false
          ∧ isNegOpt ens = false ∧ isNegOpt ene = false) →
        mkPhaseState d pr me ms mspe ens ene o = Except.ok
          { dataloader := d, progress := pr, max_epochs := me,
            max_steps := ms, max_steps_per_epoch := mspe,
            evaluate_every_n_steps := ens, evaluate_every_n_epochs := ene,
            step_output := o })
    ∧ (∀ e, mkPhaseState d pr me ms mspe ens ene o = Except.error e →
        ∃ name v, v < 0
          ∧ ((name = "max_epochs" ∧ me = some v)
            ∨ (name = "max_steps" ∧ ms = some v)
            ∨ (name = "max_steps_per_epoch" ∧ mspe = some v)
            ∨ (name = "evaluate_every_n_steps" ∧ ens = some v)
            ∨ (name = "evaluate_every_n_epochs" ∧ ene = some v))
          ∧ strContains e name ∧ strContains e (toString v)) := by
  rw [mkPhaseState_eq]
  rcases hfv : firstViolation me ms mspe ens ene with _ | ⟨name, v⟩
  · rw [firstViolation_none_iff] at hfv
    obtain ⟨h1, h2, h3, h4, h5⟩ := hfv
    refine ⟨?_, fun _ => rfl, ?_⟩
    · simp [h1, h2, h3, h4, h5]
    · intro e he
      simp at he
  · obtain ⟨hv, hname⟩ := firstViolation_some me ms mspe ens ene name v hfv
    refine ⟨?_, ?_, ?_⟩
    · constructor
      · intro _
        rcases hname with ⟨_, h⟩ | ⟨_, h⟩ | ⟨_, h⟩ | ⟨_, h⟩ | ⟨_, h⟩ <;>
          simp [isNegOpt, h, hv]
      · intro _
        exact ⟨loopErrMsg name v, rfl⟩
    · intro ⟨h1, h2, h3, h4, h5⟩
      rcases hname with ⟨_, h⟩ | ⟨_, h⟩ | ⟨_, h⟩ | ⟨_, h⟩ | ⟨_, h⟩ <;>
        simp_all [isNegOpt]
    · intro e he
      refine ⟨name, v, hv, hname, ?_, ?_⟩
      · cases he
        exact strContains_loopErrMsg_name name v
      · cases he
        exact strContains_loopErrMsg_val name v

/-- Witness for C1 at concrete inputs: all-`None` construction succeeds,
and `max_steps := -1` makes construction fail. -/
theorem phaseState_validation_witness :
    (@mkPhaseState Nat Nat Nat 0 0 none none none none none none
        = Except.ok { dataloader := 0, progress := 0 })
    ∧ (∃ e, @mkPhaseState Nat Nat Nat 0 0 none (some (-1)) none none none none
        = Except.error e) :=
  ⟨(phaseState_validation Nat Nat Nat 0 0 none none none none none none).2.1
      ⟨rfl, rfl, rfl, rfl, rfl⟩,
    (phaseState_validation Nat Nat Nat 0 0 none none (some (-1)) none none
        none).1.mpr (Or.inr (Or.inl (by decide)))⟩

/-- C2: one `stop()` makes `should_stop` true, and any number of further
`stop()` calls leaves the state — hence the observable flag — exactly as
after the single call. -/
theorem stop_idempotent {D P O T : Type} (s : State D P O T) (n : Nat) :
    (s.stop).should_stop = true
    ∧ State.stop^[n] s.stop = s.stop
    ∧ (State.stop^[n] s.stop).should_stop = true := by
  have hfix : ∀ m : Nat, State.stop^[m] s.stop = s.stop := by
    intro m
    induction m with
    | zero => rfl
    | succ k ih => rw [Function.iterate_succ_apply', ih]; rfl
  exact ⟨rfl, hfix n, by rw [hfix n]; rfl⟩

/-- C3: a freshly constructed `State` has `should_stop = false`, for every
entry point and every choice of the documented constructor arguments. -/
theorem fresh_state_not_stopped {D P O T : Type} (ep : EntryPoint) (t : T)
    (ts es ps : Option (PhaseState D P O)) :
    (mkState ep t ts es ps : State D P O T).should_stop = false :=
  rfl

/-- C4: the stop flag is terminal — once `should_stop` is true, no sequence
of container operations (stop calls, flag reads, driver writes to phase
data) ever makes it false again. -/
theorem stop_flag_terminal {D P O T : Type} (s : State D P O T)
    (ops : List (DriverOp P O)) (h : s.should_stop = true) :
    (applyOps ops s).should_stop = true := by
  induction ops generalizing s with
  | nil => exact h
  | cons op rest ih =>
      exact ih (applyOp op s) (applyOp_flag_mono op s h)

/-- Witness for C4: a stopped state stays stopped under a concrete sequence
of driver writes, a read, and another stop call. -/
theorem stop_flag_terminal_witness :
    (State.mk EntryPoint.TRAIN 0 none none none true
        : State Nat Nat Nat Nat).should_stop = true
    ∧ (applyOps
        [DriverOp.writeTrainOutput (some 7), DriverOp.readFlag,
          DriverOp.stopCall, DriverOp.writeEvalProgress 3]
        (State.mk EntryPoint.TRAIN 0 none none none true
          : State Nat Nat Nat Nat)).should_stop = true :=
  ⟨rfl, stop_flag_terminal _ _ rfl⟩

/-- C5: `stop()` mutates only the internal stop flag — the entry point,
timer and all three optional phase states (hence every field of any
contained `PhaseState`) are unchanged, while the flag becomes true. -/
theorem stop_frame {D P O T : Type} (s : State D P O T) :
    (s.stop).entry_point = s.entry_point
    ∧ (s.stop).timer = s.timer
    ∧ (s.stop).train_state = s.train_state
    ∧ (s.stop).eval_state = s.eval_state
    ∧ (s.stop).predict_state = s.predict_state
    ∧ (s.stop).should_stop = true :=
  ⟨rfl, rfl, rfl, rfl, rfl, rfl⟩

/-- C6: a constructed `State` exposes its constructor arguments unchanged:
`entry_point` is the value passed (for every entry point and any phase
states), and construction with only `eval_state` populated exposes it
unchanged with the other two slots `None`. -/
theorem state_exposes_constructor_args {D P O T : Type} (ep : EntryPoint)
    (t : T) (ts es ps : Option (PhaseState D P O)) (q : PhaseState D P O) :
    (mkState ep t ts es ps : State D P O T).entry_point = ep
    ∧ (mkState ep t none (some q) none : State D P O T).eval_state = some q
    ∧ (mkState ep t none (some q) none : State D P O T).train_state = none
    ∧ (mkState ep t none (some q) none : State D P O T).predict_state
        = none :=
  ⟨rfl, rfl, rfl, rfl⟩

/-- C7: `State` construction is total — it performs no cross-field
validation, so every combination of entry point and optional phase states
(including `TRAIN` with a non-`None` `eval_state`) yields a state exposing
exactly those arguments, and `stop` / `should_stop` reads are total pure
functions on it. -/
theorem state_construction_total {D P O T : Type} (ep : EntryPoint) (t : T)
    (ts es ps : Option (PhaseState D P O)) :
    ∃ s : State D P O T, mkState ep t ts es ps = s
      ∧ s.entry_point = ep ∧ s.timer = t ∧ s.train_state = ts
      ∧ s.eval_state = es ∧ s.predict_state = ps
      ∧ s.read_should_stop = (false, s)
      ∧ (s.stop).should_stop = true :=
  ⟨mkState ep t ts es ps, rfl, rfl, rfl, rfl, rfl, rfl, rfl, rfl⟩

/-- C8: reading `should_stop` returns the current flag and leaves the state
entirely unchanged, so two consecutive reads with no intervening `stop()`
agree. -/
theorem should_stop_read_pure {D P O T : Type} (s : State D P O T) :
    s.read_should_stop = (s._should_stop, s)
    ∧ (s.read_should_stop).2 = s
    ∧ ((s.read_should_stop).2.read_should_stop).1 = (s.read_should_stop).1 :=
  ⟨rfl, rfl, rfl⟩

/-- C9: when several fields are negative, the error reports exactly the
first offending field (with its value) in the order max_epochs, max_steps,
max_steps_per_epoch, evaluate_every_n_steps, evaluate_every_n_epochs. -/
theorem phaseState_reports_first_violation {D P O : Type} (d : D) (pr : P)
    (o : Option O) (me ms mspe ens ene : Option Int) (name : String)
    (v : Int) (h : firstViolation me ms mspe ens ene = some (name, v)) :
    mkPhaseState d pr me ms mspe ens ene o
      = Except.error (loopErrMsg name v) := by
  rw [mkPhaseState_eq, h]

/-- Witness for C9: with `max_epochs = -1` and `max_steps = -2`, the error
reports `max_epochs` and `-1`. -/
theorem phaseState_reports_first_violation_witness :
    firstViolation (some (-1)) (some (-2)) none none none
        = some ("max_epochs", -1)
    ∧ @mkPhaseState Nat Nat Nat 0 0 (some (-1)) (some (-2)) none none none
        none = Except.error (loopErrMsg "max_epochs" (-1)) :=
  ⟨by decide,
    phaseState_reports_first_violation 0 0 none (some (-1)) (some (-2))
      none none none "max_epochs" (-1) (by decide)⟩

/-- C10: the stop flag is an ordinary constructor field `_should_stop`
defaulting to false: passing `True` explicitly yields a state whose
`should_stop` is true before any `stop()` call, while omitting it yields
false. -/
theorem should_stop_constructor_field {D P O T : Type} (ep : EntryPoint)
    (t : T) :
    (State.mk ep t none none none true : State D P O T).should_stop = true
    ∧ ({ entry_point := ep, timer := t } : State D P O T)._should_stop
        = false :=
  ⟨rfl, rfl⟩

end TnT
